import Mathlib

/-!
Verification of the mlCloudDetect decision layer against its source.

The definitions below are a shallow embedding of the Python source:
`StateTracker` and its `update` method mirror `cloud_detect.py`
(class `StateTracker`, lines 85-144); the sun-gating conditions mirror
`run_service` (lines 173-187) and `run_single` (lines 236-250); the
configuration dataclasses and `load_config` mirror `config.py`; the
Home Assistant discovery publication mirrors `mqtt.py`
(`MqttPublisher._publish_ha_discovery`, lines 87-154).

Modelling conventions: Python `int` is `Int` (`consecutive_count` is only
ever assigned 0, 1 or a successor, so it is a `Nat`); Python `float`
values that are only compared for order or against the 0.0 sentinel are
`Rat` (the comparisons in the source are exact float comparisons, and the
claims are about strictness and sentinels, not rounding); `None` is
`Option.none`; a caught exception is an explicit alternative of an input
type.
-/

namespace MlCloudDetect

/-- Embeds `StateTracker.__init__` plus the mutable fields of the class
(`cloud_detect.py` lines 88-92): `pending_count` is the configured debounce
threshold, `current_state` the confirmed state (`none` = unknown,
`some true` = cloudy, `some false` = clear), `pending_state` the pending
candidate, `consecutive_count` the count of consecutive agreeing contrary
readings. -/
structure StateTracker where
  pending_count : Int
  current_state : Option Bool
  pending_state : Option Bool
  consecutive_count : Nat
  deriving Repr, DecidableEq

/-- The state a fresh `StateTracker(pending_count)` starts in
(`cloud_detect.py` lines 88-92). -/
def StateTracker.init (pending_count : Int) : StateTracker :=
  { pending_count := pending_count
    current_state := none
    pending_state := none
    consecutive_count := 0 }

/-- Embeds `StateTracker.update` (`cloud_detect.py` lines 94-144).
Returns the updated tracker together with the Python return value
`(state_changed, confirmed_state)`.  The branch structure follows the
source line by line: first-reading initialisation, agreement reset,
start of a pending transition, continuation with the `>=` threshold
test after the increment, and direction-flip restart. -/
def StateTracker.update (s : StateTracker) (is_cloudy : Bool) :
    StateTracker × Bool × Bool :=
  match s.current_state with
  | none =>
      ({ s with current_state := some is_cloudy
                pending_state := none
                consecutive_count := 0 },
       true, is_cloudy)
  | some cur =>
      if is_cloudy = cur then
        ({ s with pending_state := none, consecutive_count := 0 }, false, cur)
      else
        match s.pending_state with
        | none =>
            ({ s with pending_state := some is_cloudy
                      consecutive_count := 1 },
             false, cur)
        | some pend =>
            if is_cloudy = pend then
              if ((s.consecutive_count + 1 : Nat) : Int) ≥ s.pending_count then
                ({ s with current_state := some is_cloudy
                          pending_state := none
                          consecutive_count := 0 },
                 true, is_cloudy)
              else
                ({ s with consecutive_count := s.consecutive_count + 1 },
                 false, cur)
            else
              ({ s with pending_state := some is_cloudy
                        consecutive_count := 1 },
               false, cur)

/-- Feeds a list of raw readings through `StateTracker.update` in order,
returning the final tracker and the list of `state_changed` flags, as the
service loop would produce them tick after tick. -/
def runReadings (s : StateTracker) : List Bool → StateTracker × List Bool
  | [] => (s, [])
  | b :: bs =>
      let step := s.update b
      let rest := runReadings step.1 bs
      (rest.1, step.2.1 :: rest.2)

/-! ## Configuration (`config.py`) -/

/-- Embeds dataclass `ObservatoryConfig` (`config.py` lines 86-90). -/
structure ObservatoryConfig where
  latitude : Rat
  longitude : Rat
  daytime_threshold : Rat
  deriving Repr, DecidableEq

/-- Embeds dataclass `CameraConfig` (`config.py` lines 93-99). -/
structure CameraConfig where
  type : String
  camera_id : Int
  database_path : String
  image_base_path : String
  image_file : String
  deriving Repr, DecidableEq

/-- Embeds dataclass `ModelConfig` (`config.py` lines 102-106). -/
structure ModelConfig where
  model_path : String
  labels_path : String
  image_size : Int
  deriving Repr, DecidableEq

/-- Embeds dataclass `MqttConfig` (`config.py` lines 109-124).  The field
`ha_discovery_root` embeds the source field `ha_discovery_` `prefix` (the
discovery topic root). -/
structure MqttConfig where
  enabled : Bool
  broker : String
  port : Int
  username : String
  password : String
  topic : String
  ha_discovery : Bool
  ha_discovery_root : String
  device_name : String
  device_id : String
  thumbnail_enabled : Bool
  thumbnail_topic : String
  thumbnail_size : Int
  thumbnail_quality : Int
  deriving Repr, DecidableEq

/-- Embeds dataclass `ServiceConfig` (`config.py` lines 127-131). -/
structure ServiceConfig where
  mode : String
  interval : Int
  pending_count : Int
  deriving Repr, DecidableEq

/-- Embeds dataclass `Config` (`config.py` lines 134-140). -/
structure Config where
  observatory : ObservatoryConfig
  camera : CameraConfig
  model : ModelConfig
  mqtt : MqttConfig
  service : ServiceConfig
  deriving Repr, DecidableEq

/-- The configuration obtained by parsing the `DEFAULT_CONFIG` TOML text
that `load_config` writes when the config file is missing
(`config.py` lines 10-83): every value there equals the dataclass
default. -/
def default_toml_config : Config :=
  { observatory :=
      { latitude := 0, longitude := 0, daytime_threshold := -12 }
    camera :=
      { type := "indi-allsky"
        camera_id := 1
        database_path := "/var/lib/indi-allsky/indi-allsky.sqlite"
        image_base_path := "/var/www/html/allsky/images"
        image_file := "" }
    model :=
      { model_path := "model.onnx", labels_path := "labels.txt", image_size := 224 }
    mqtt :=
      { enabled := false
        broker := "localhost"
        port := 1883
        username := ""
        password := ""
        topic := "mlclouddetect/status"
        ha_discovery := true
        ha_discovery_root := "homeassistant"
        device_name := "Cloud Detector"
        device_id := "mlclouddetect"
        thumbnail_enabled := true
        thumbnail_topic := "mlclouddetect/thumbnail"
        thumbnail_size := 320
        thumbnail_quality := 75 }
    service :=
      { mode := "single", interval := 60, pending_count := 3 } }

/-- The filesystem facts `load_config` depends on: whether the config file
exists, and (when it does) the result of opening and TOML-parsing its
contents, where `Except.error` stands for the exception `tomllib.load`
raises on invalid TOML. -/
structure ConfigFile where
  file_exists : Bool
  parsed : Except String Config
  deriving Repr

/-- Embeds `load_config` (`config.py` lines 143-216): when the config file
does not exist it writes `DEFAULT_CONFIG` to it and parses that text --
which always succeeds and yields `default_toml_config` -- and when the file
exists it parses the existing contents, propagating any parse exception. -/
def load_config (fs : ConfigFile) : Except String Config :=
  if fs.file_exists then fs.parsed
  else Except.ok default_toml_config

/-- Embeds the configuration-loading phase of `main`
(`cloud_detect.py` lines 323-345): an exception escaping `load_config` is
caught and `main` returns exit code 1 (`Except.error 1`); otherwise `main`
proceeds to detection with the loaded configuration (`Except.ok`). -/
def main_config_phase (fs : ConfigFile) : Except Nat Config :=
  match load_config fs with
  | Except.ok c => Except.ok c
  | Except.error _ => Except.error 1

/-! ## Sun gating (`cloud_detect.py`, `run_service` and `run_single`) -/

/-- Embeds the daytime gate of `run_service` (`cloud_detect.py` lines
173-184): `is_daytime` starts `False`; only when the configured location
differs from the `(0, 0)` sentinel is the sun altitude computed and
compared strictly against the threshold.  Detection is skipped exactly
when this returns `true`.  `sun_altitude` abstracts the external
`get_sun_altitude` collaborator. -/
def service_gate (obs : ObservatoryConfig) (sun_altitude : Rat) : Bool :=
  if obs.latitude ≠ 0 ∨ obs.longitude ≠ 0 then
    decide (sun_altitude > obs.daytime_threshold)
  else
    false

/-- Embeds the daytime skip of `run_single` (`cloud_detect.py` lines
236-250): inside the location-configured branch, detection is skipped when
the altitude strictly exceeds the threshold and no explicit image path was
given. -/
def single_gate (obs : ObservatoryConfig) (sun_altitude : Rat)
    (image_path : Option String) : Bool :=
  if obs.latitude ≠ 0 ∨ obs.longitude ≠ 0 then
    decide (sun_altitude > obs.daytime_threshold ∧ image_path = none)
  else
    false

/-! ## The continuous service loop (`cloud_detect.py`, `run_service`) -/

/-- What one tick of the `run_service` loop body observes from the outside
world (`cloud_detect.py` lines 171-207): the gate fired (`daytime`), image
fetch and classification succeeded with a raw verdict (`sample`), the image
fetch raised `FileNotFoundError` (`imageNotFound`), or fetch/classification
raised some other exception (`detectionError`). -/
inductive TickOutcome where
  | daytime : TickOutcome
  | sample : Bool → TickOutcome
  | imageNotFound : TickOutcome
  | detectionError : TickOutcome
  deriving Repr, DecidableEq

/-- Embeds the effect of one `run_service` loop iteration on the
`StateTracker` (`cloud_detect.py` lines 171-207): `state_tracker.update`
runs only after a successful fetch and classification; on a daytime skip
or on either caught exception the handler merely logs, so the tracker is
untouched and the loop continues at the next interval. -/
def run_service_tick (s : StateTracker) (t : TickOutcome) : StateTracker :=
  match t with
  | TickOutcome.sample b => (s.update b).1
  | _ => s

/-- The `run_service` loop over a finite list of per-tick outcomes. -/
def run_service_ticks (s : StateTracker) (ts : List TickOutcome) : StateTracker :=
  ts.foldl run_service_tick s

/-! ## Home Assistant discovery (`mqtt.py`, `_publish_ha_discovery`) -/

/-- Embeds the `device_info` dict of `_publish_ha_discovery`
(`mqtt.py` lines 89-95). -/
structure HaDeviceInfo where
  identifiers : List String
  name : String
  manufacturer : String
  model : String
  sw_version : String
  deriving Repr, DecidableEq

/-- Embeds the three discovery-config dicts of `_publish_ha_discovery`
(`mqtt.py` lines 100-133) as one record; a key absent from a given dict is
`none`. -/
structure HaEntityConfig where
  name : String
  unique_id : String
  state_topic : String
  value_template : String
  device : HaDeviceInfo
  icon : String
  json_attributes_topic : Option String
  json_attributes_template : Option String
  payload_on : Option Bool
  payload_off : Option Bool
  unit_of_measurement : Option String
  deriving Repr, DecidableEq

/-- One message handed to `client.publish` (topic, discovery payload,
retain flag). -/
structure DiscoveryMessage where
  topic : String
  payload : HaEntityConfig
  retain : Bool
  deriving Repr, DecidableEq

/-- The `device_info` dict (`mqtt.py` lines 89-95). -/
def ha_device_info (cfg : MqttConfig) : HaDeviceInfo :=
  { identifiers := [cfg.device_id]
    name := cfg.device_name
    manufacturer := "mlCloudDetect"
    model := "Cloud Detector"
    sw_version := "2.0" }

/-- The `sky_sensor_config` dict (`mqtt.py` lines 100-110). -/
def sky_sensor_config (cfg : MqttConfig) : HaEntityConfig :=
  { name := "Sky Condition"
    unique_id := cfg.device_id ++ "_sky_condition"
    state_topic := cfg.topic
    value_template := "\x7b\x7b value_json.class_name \x7d\x7d"
    device := ha_device_info cfg
    icon := "mdi:weather-cloudy"
    json_attributes_topic := some cfg.topic
    json_attributes_template := some "\x7b\x7b value_json | tojson \x7d\x7d"
    payload_on := none
    payload_off := none
    unit_of_measurement := none }

/-- The `binary_sensor_config` dict (`mqtt.py` lines 112-122). -/
def binary_sensor_config (cfg : MqttConfig) : HaEntityConfig :=
  { name := "Is Cloudy"
    unique_id := cfg.device_id ++ "_is_cloudy"
    state_topic := cfg.topic
    value_template := "\x7b\x7b value_json.is_cloudy \x7d\x7d"
    device := ha_device_info cfg
    icon := "mdi:cloud-question"
    json_attributes_topic := none
    json_attributes_template := none
    payload_on := some true
    payload_off := some false
    unit_of_measurement := none }

/-- The `confidence_sensor_config` dict (`mqtt.py` lines 124-133). -/
def confidence_sensor_config (cfg : MqttConfig) : HaEntityConfig :=
  { name := "Detection Confidence"
    unique_id := cfg.device_id ++ "_confidence"
    state_topic := cfg.topic
    value_template := "\x7b\x7b value_json.confidence \x7d\x7d"
    device := ha_device_info cfg
    icon := "mdi:percent"
    json_attributes_topic := none
    json_attributes_template := none
    payload_on := none
    payload_off := none
    unit_of_measurement := some "%" }

/-- Embeds `_publish_ha_discovery` (`mqtt.py` lines 87-154): the three
`client.publish` calls in source order, each with `retain=True`.  The
method reads only the configuration; it keeps no published-before flag, so
its output is the same on every invocation. -/
def publish_ha_discovery (cfg : MqttConfig) : List DiscoveryMessage :=
  [ { topic := cfg.ha_discovery_root ++ "/sensor/" ++ cfg.device_id
              ++ "/sky_condition/config"
      payload := sky_sensor_config cfg
      retain := true }
  , { topic := cfg.ha_discovery_root ++ "/binary_sensor/" ++ cfg.device_id
              ++ "/is_cloudy/config"
      payload := binary_sensor_config cfg
      retain := true }
  , { topic := cfg.ha_discovery_root ++ "/sensor/" ++ cfg.device_id
              ++ "/confidence/config"
      payload := confidence_sensor_config cfg
      retain := true } ]

/-- The observable trace of a publisher over a process lifetime: every
message handed to the client so far, in order. -/
structure PublisherTrace where
  sent : List DiscoveryMessage
  deriving Repr, DecidableEq

/-- One invocation of `_publish_ha_discovery` appends its three messages to
the trace. -/
def publishDiscoveryStep (cfg : MqttConfig) (tr : PublisherTrace) : PublisherTrace :=
  { sent := tr.sent ++ publish_ha_discovery cfg }

/-! ## Theorems -/

/-- Claim C6: when the confirmed state is Unknown (`current_state = none`),
`StateTracker.update` adopts the first raw reading immediately as the
confirmed state, clears the pending transition and the count, and reports a
change, for either reading value and whatever the other fields held. -/
theorem first_reading_seeds_state (pc : Int) (pend : Option Bool) (cnt : Nat) (r : Bool) :
    (StateTracker.mk pc none pend cnt).update r
      = (StateTracker.mk pc (some r) none 0, true, r) := rfl

/-- Claim C4: starting confirmed Clear with `pending_count = 3`, the reading
sequence [Cloudy, Cloudy, Clear, Cloudy, Cloudy, Cloudy] reports no change on
the first five readings, leaves the confirmed state Clear after each of them
(the Clear at position 3 resets the opposing counter), and flips the
confirmed state to Cloudy exactly on the sixth reading. -/
theorem clear_to_cloudy_trace :
    (runReadings (StateTracker.mk 3 (some false) none 0)
        [true, true, false, true, true, true]).2
      = [false, false, false, false, false, true]
    ∧ (runReadings (StateTracker.mk 3 (some false) none 0)
        ([true, true, false, true, true, true].take 1)).1.current_state = some false
    ∧ (runReadings (StateTracker.mk 3 (some false) none 0)
        ([true, true, false, true, true, true].take 2)).1.current_state = some false
    ∧ (runReadings (StateTracker.mk 3 (some false) none 0)
        ([true, true, false, true, true, true].take 3)).1.current_state = some false
    ∧ (runReadings (StateTracker.mk 3 (some false) none 0)
        ([true, true, false, true, true, true].take 4)).1.current_state = some false
    ∧ (runReadings (StateTracker.mk 3 (some false) none 0)
        ([true, true, false, true, true, true].take 5)).1.current_state = some false
    ∧ (runReadings (StateTracker.mk 3 (some false) none 0)
        [true, true, false, true, true, true]).1.current_state = some true := by
  decide

/-- Claim C1, counterexample: with `pending_count = 1` (which is `≤ 1`),
confirmed state Clear and the disagreeing reading Cloudy, `update` does NOT
immediately confirm: it reports no change and leaves the confirmed state
Clear, contradicting the claimed immediate confirmation on that same
reading. -/
theorem low_threshold_not_immediate :
    ((StateTracker.mk 1 (some false) none 0).update true).2.1 = false
    ∧ ((StateTracker.mk 1 (some false) none 0).update true).1.current_state
        = some false := by
  decide

/-- Claim C1, amended: with `pending_count ≤ 1`, a confirmed (non-Unknown)
state, no pending transition and a disagreeing reading, `update` does not
crash but does not confirm immediately either: the first disagreeing reading
starts a pending transition (no change reported, confirmed state unchanged),
and the change is confirmed on the second consecutive disagreeing reading. -/
theorem low_threshold_confirms_on_second (pc : Int) (c r : Bool) (cnt : Nat)
    (hpc : pc ≤ 1) (hne : r ≠ c) :
    ((StateTracker.mk pc (some c) none cnt).update r).2.1 = false
    ∧ ((StateTracker.mk pc (some c) none cnt).update r).1.current_state = some c
    ∧ ((((StateTracker.mk pc (some c) none cnt).update r).1).update r).2.1 = true
    ∧ ((((StateTracker.mk pc (some c) none cnt).update r).1).update r).1.current_state
        = some r := by
  have h2 : ((1 + 1 : Nat) : Int) ≥ pc := by omega
  cases c <;> cases r <;> simp_all [StateTracker.update]

/-- Claim C1, witness for the amended theorem at `pending_count = 1`,
confirmed Clear, reading Cloudy. -/
theorem low_threshold_confirms_on_second_witness :
    ((StateTracker.mk 1 (some false) none 0).update true).2.1 = false
    ∧ ((StateTracker.mk 1 (some false) none 0).update true).1.current_state = some false
    ∧ ((((StateTracker.mk 1 (some false) none 0).update true).1).update true).2.1 = true
    ∧ ((((StateTracker.mk 1 (some false) none 0).update true).1).update true).1.current_state
        = some true :=
  low_threshold_confirms_on_second 1 false true 0 (by decide) (by decide)

/-- Claim C3: for every tracker state and raw reading, `update` reports a
change or alters the confirmed state exactly when the confirmed state was
Unknown (rule 1) or the reading disagrees with the confirmed state, matches
the pending candidate, and the incremented consecutive count reaches the
configured `pending_count` threshold (rule 3); on every other (intermediate
pending) step the confirmed state is unchanged and no change is reported.
Per-step universality over all states gives the claim for every sequence of
readings. -/
theorem confirmed_changes_only_at_rule1_or_threshold (s : StateTracker) (r : Bool) :
    ((s.update r).2.1 = true ∨ (s.update r).1.current_state ≠ s.current_state)
      ↔ (s.current_state = none
          ∨ (s.current_state ≠ some r ∧ s.pending_state = some r
              ∧ s.pending_count ≤ (s.consecutive_count : Int) + 1)) := by
  obtain ⟨pc, cur, pend, cnt⟩ := s
  rcases cur with _ | c
  · simp [StateTracker.update]
  · rcases pend with _ | p
    · cases c <;> cases r <;> simp [StateTracker.update]
    · cases c <;> cases p <;> cases r <;>
        simp [StateTracker.update] <;>
        split_ifs <;> simp_all

/-- Helper for claim C8: after any single `update`, a set pending candidate
is the negation of the (new) confirmed state. -/
theorem update_pending_negates (s : StateTracker) (r : Bool) (p : Bool)
    (h : (s.update r).1.pending_state = some p) :
    (s.update r).1.current_state = some (!p) := by
  obtain ⟨pc, cur, pend, cnt⟩ := s
  rcases cur with _ | c
  · simp [StateTracker.update] at h
  · rcases pend with _ | q
    · cases c <;> cases r <;> simp_all [StateTracker.update]
    · cases c <;> cases q <;> cases r <;>
        simp_all [StateTracker.update] <;>
        split_ifs at h ⊢ <;> simp_all

/-- Helper for claim C8: the single-step property propagates along any
reading sequence. -/
theorem runReadings_pending_negates (s : StateTracker)
    (hs : ∀ p, s.pending_state = some p → s.current_state = some (!p))
    (l : List Bool) (p : Bool)
    (h : (runReadings s l).1.pending_state = some p) :
    (runReadings s l).1.current_state = some (!p) := by
  induction l generalizing s with
  | nil => exact hs p h
  | cons b bs ih =>
      exact ih ((s.update b).1) (fun q hq => update_pending_negates s b q hq) h

/-- Claim C8: in every state reachable from a fresh tracker by any sequence
of `update` calls, whenever the pending candidate is set it equals the
logical negation of the confirmed state at that moment. -/
theorem pending_negates_confirmed (pc : Int) (l : List Bool) (p : Bool)
    (h : (runReadings (StateTracker.init pc) l).1.pending_state = some p) :
    (runReadings (StateTracker.init pc) l).1.current_state = some (!p) := by
  refine runReadings_pending_negates (StateTracker.init pc) ?_ l p h
  intro q hq
  simp [StateTracker.init] at hq

/-- Claim C8, witness: after the readings [Clear, Cloudy] from a fresh
tracker the pending candidate is Cloudy and the confirmed state is its
negation, Clear. -/
theorem pending_negates_confirmed_witness :
    (runReadings (StateTracker.init 3) [false, true]).1.pending_state = some true
    ∧ (runReadings (StateTracker.init 3) [false, true]).1.current_state
        = some (!true) :=
  ⟨by decide, pending_negates_confirmed 3 [false, true] true (by decide)⟩

/-- Helper for claim C10: after any single `update`, the pending candidate
is `none` exactly when the consecutive count is zero. -/
theorem update_pending_iff_count (s : StateTracker) (r : Bool) :
    ((s.update r).1.pending_state = none ↔ (s.update r).1.consecutive_count = 0) := by
  obtain ⟨pc, cur, pend, cnt⟩ := s
  rcases cur with _ | c
  · simp [StateTracker.update]
  · rcases pend with _ | q
    · cases c <;> cases r <;> simp [StateTracker.update]
    · cases c <;> cases q <;> cases r <;>
        simp [StateTracker.update] <;> split_ifs <;> simp_all

/-- Claim C10: after construction and after every sequence of `update`
calls, the pending candidate is `none` if and only if the consecutive count
is zero; since the count is a natural number, a set pending candidate forces
a count of at least 1. -/
theorem pending_iff_nonzero_count (pc : Int) (l : List Bool) :
    ((runReadings (StateTracker.init pc) l).1.pending_state = none
      ↔ (runReadings (StateTracker.init pc) l).1.consecutive_count = 0) := by
  have main : ∀ (l : List Bool) (s : StateTracker),
      (s.pending_state = none ↔ s.consecutive_count = 0) →
      ((runReadings s l).1.pending_state = none
        ↔ (runReadings s l).1.consecutive_count = 0) := by
    intro l
    induction l with
    | nil => intro s hs; exact hs
    | cons b bs ih =>
        intro s hs
        exact ih ((s.update b).1) (update_pending_iff_count s b)
  exact main l (StateTracker.init pc) (by simp [StateTracker.init])

/-- Claim C5: the service loop's sun gate skips detection exactly when the
configured location differs from the `(0, 0)` sentinel and the sun altitude
strictly exceeds the threshold; an altitude equal to the threshold is
non-daytime, a `(0, 0)` location disables gating regardless of altitude, and
`run_single` without an explicit image path gates identically. -/
theorem sun_gate_skips_iff (obs : ObservatoryConfig) (alt : Rat) :
    (service_gate obs alt = true
      ↔ (¬(obs.latitude = 0 ∧ obs.longitude = 0) ∧ obs.daytime_threshold < alt))
    ∧ service_gate obs obs.daytime_threshold = false
    ∧ service_gate
        { obs with latitude := 0, longitude := 0 } alt = false
    ∧ single_gate obs alt none = service_gate obs alt := by
  constructor
  · unfold service_gate
    split_ifs with h
    · simp only [decide_eq_true_eq]
      constructor
      · intro ha; exact ⟨fun hz => by rcases h with h | h <;> simp_all, ha⟩
      · intro ha; exact ha.2
    · push_neg at h
      simp [h.1, h.2]
  · refine ⟨?_, ?_, ?_⟩
    · unfold service_gate
      split_ifs <;> simp
    · simp [service_gate]
    · unfold service_gate single_gate
      split_ifs <;> simp

/-- Claim C7: a tick of the service loop on which the image fetch raised
`FileNotFoundError` or fetch/classification raised any other exception (and
likewise a daytime-gated tick) leaves the hysteresis state -- confirmed
state, pending candidate and consecutive count -- exactly as it was after
the previous tick, for any history of preceding ticks; the loop then
continues with the remaining ticks. -/
theorem failed_tick_preserves_state (s : StateTracker) (ts : List TickOutcome) :
    run_service_ticks s (ts ++ [TickOutcome.imageNotFound]) = run_service_ticks s ts
    ∧ run_service_ticks s (ts ++ [TickOutcome.detectionError]) = run_service_ticks s ts
    ∧ run_service_ticks s (ts ++ [TickOutcome.daytime]) = run_service_ticks s ts := by
  simp [run_service_ticks, List.foldl_append, run_service_tick]

/-- Claim C9: `_publish_ha_discovery` keeps no published-before flag, so two
invocations in one process lifetime append the identical three-message batch
to the trace each time: three documents, all retained, on the sky-condition,
is-cloudy and confidence discovery topics, with payloads depending only on
the configuration. -/
theorem discovery_publish_idempotent_content (cfg : MqttConfig) (tr : PublisherTrace) :
    (publishDiscoveryStep cfg (publishDiscoveryStep cfg tr)).sent
      = tr.sent ++ publish_ha_discovery cfg ++ publish_ha_discovery cfg
    ∧ (publish_ha_discovery cfg).length = 3
    ∧ (publish_ha_discovery cfg).map DiscoveryMessage.retain = [true, true, true]
    ∧ (publish_ha_discovery cfg).map DiscoveryMessage.topic
        = [cfg.ha_discovery_root ++ "/sensor/" ++ cfg.device_id ++ "/sky_condition/config",
           cfg.ha_discovery_root ++ "/binary_sensor/" ++ cfg.device_id ++ "/is_cloudy/config",
           cfg.ha_discovery_root ++ "/sensor/" ++ cfg.device_id ++ "/confidence/config"] := by
  refine ⟨?_, rfl, rfl, rfl⟩
  simp [publishDiscoveryStep]

/-- Claim C2, counterexample: with the config file missing, `load_config`
succeeds with the default configuration instead of failing -- even when the
filesystem could not have parsed any existing content -- and `main` proceeds
to detection rather than returning exit code 1. -/
theorem missing_config_not_fatal :
    load_config { file_exists := false, parsed := Except.error "unreadable" }
      = Except.ok default_toml_config
    ∧ main_config_phase { file_exists := false, parsed := Except.error "unreadable" }
      ≠ Except.error 1 := by
  constructor
  · rfl
  · intro h
    simp [main_config_phase, load_config] at h

/-- Claim C2, amended: when the configuration file is missing, `load_config`
creates it with the `DEFAULT_CONFIG` text and returns the default
configuration, and `main` proceeds to detection with it; no error is raised
and exit code 1 is not taken for a merely missing config file. -/
theorem missing_config_uses_defaults (fs : ConfigFile)
    (h : fs.file_exists = false) :
    load_config fs = Except.ok default_toml_config
    ∧ main_config_phase fs = Except.ok default_toml_config := by
  have hl : load_config fs = Except.ok default_toml_config := by
    simp [load_config, h]
  exact ⟨hl, by simp [main_config_phase, hl]⟩

/-- Claim C2, witness for the amended theorem at a concrete missing-file
filesystem. -/
theorem missing_config_uses_defaults_witness :
    load_config { file_exists := false, parsed := Except.error "bad toml" }
      = Except.ok default_toml_config
    ∧ main_config_phase { file_exists := false, parsed := Except.error "bad toml" }
      = Except.ok default_toml_config :=
  missing_config_uses_defaults
    { file_exists := false, parsed := Except.error "bad toml" } rfl

end MlCloudDetect
